import Mathlib

/-
A shallow embedding of the bunoffe Go library (files bunoffe.go and
testing.go): a pass-through query realizer and a scripted mock query
executor for the bun ORM.

Modelling conventions:
* Go interface values that may be nil (error, sql.Result, the any-typed
  Model field) become Option over abstract element types Err, Res, Val.
* context.Context becomes an abstract type Ctx; the mock never reads it.
* The only part of a query the mock reads is the value registered on it
  via .Model(&m), reached through q.GetModel().Value(); a query passed to
  a mock method is therefore represented by that model value (qModel).
* A Go panic becomes a dedicated outcome constructor carrying the kind of
  panic; the mock state returned alongside it is the state the in-memory
  executor has at the moment of the panic.
* Mutation through pointers (the query model cell, the caller-supplied
  args cells, the cell the scripted operation's Model field points at)
  becomes explicit value passing: each method returns the post-call
  contents of those cells.
-/

namespace Bunoffe

variable {Ctx Err Res Val : Type}

/-- The kinds of panic the mock can raise: exhaustion of the Ops slice
(from nextOp), an operation-type mismatch (from the failed cast), the
explicit length check in Exec, and the out-of-bounds slice index in the
args loop of Scan. -/
inductive PanicKind : Type where
  | exhausted (requested total : Nat)
  | typeMismatch (expected : String)
  | argsLenMismatch
  | indexOutOfRange
  deriving DecidableEq, Repr

/-- MockedQueryOperation: the common type of the three scripted operation
kinds MockExecOperation, MockScanOperation and MockExistsOperation, with
their fields (Model, Args, Result, Error, Exists). -/
inductive MockedQueryOperation (Err Res Val : Type) : Type where
  | execOp (Model : Option Val) (Args : List Val) (Result : Option Res) (Error : Option Err)
  | scanOp (Model : Option Val) (Args : List Val) (Error : Option Err)
  | existsOp (ExistsVal : Bool) (Error : Option Err)
  deriving DecidableEq, Repr

/-- True exactly when the operation is a MockExecOperation. -/
def MockedQueryOperation.isExec : MockedQueryOperation Err Res Val → Bool
  | .execOp _ _ _ _ => true
  | _ => false

/-- True exactly when the operation is a MockScanOperation. -/
def MockedQueryOperation.isScan : MockedQueryOperation Err Res Val → Bool
  | .scanOp _ _ _ => true
  | _ => false

/-- True exactly when the operation is a MockExistsOperation. -/
def MockedQueryOperation.isExists : MockedQueryOperation Err Res Val → Bool
  | .existsOp _ _ => true
  | _ => false

/-- MockQueryExecutor: the slice of scripted operations and the private
cursor idx. -/
structure MockQueryExecutor (Err Res Val : Type) : Type where
  Ops : List (MockedQueryOperation Err Res Val)
  idx : Nat
  deriving DecidableEq, Repr

/-- nextOp: if len(Ops) is at most idx it panics (here: returns none and
the unchanged state); otherwise it increments idx and returns Ops at the
old idx. -/
def MockQueryExecutor.nextOp (ex : MockQueryExecutor Err Res Val) :
    MockQueryExecutor Err Res Val × Option (MockedQueryOperation Err Res Val) :=
  if h : ex.Ops.length ≤ ex.idx then
    (ex, none)
  else
    (⟨ex.Ops, ex.idx + 1⟩, some (ex.Ops.get ⟨ex.idx, Nat.not_le.mp h⟩))

/-- The args-assignment loop shared by Exec and Scan: for i, val in range
opArgs, assign val into args at index i (Go indexing panics when i is out
of range: the Bool is false then, and the partially updated list is
returned, matching memory contents at panic time). -/
def rangeAssign (args : List Val) : List Val → Nat → List Val × Bool
  | [], _ => (args, true)
  | v :: rest, i =>
    if i < args.length then
      rangeAssign (args.set i v) rest (i + 1)
    else
      (args, false)

/-- Outcome of a call to Exec: a panic, or a returned pair
(sql.Result, error). -/
inductive ExecOutcome (Err Res : Type) : Type where
  | panic (k : PanicKind)
  | ret (result : Option Res) (error : Option Err)
  deriving DecidableEq, Repr

/-- Everything observable after a call to Exec: the mock state, the
returned values or panic, and the post-call contents of the query-model
cell, the args cells, and the cell op.Model points at (none when
op.Model is nil or no exec operation was consumed). -/
structure ExecCall (Err Res Val : Type) : Type where
  ex : MockQueryExecutor Err Res Val
  outcome : ExecOutcome Err Res
  qModel : Val
  args : List Val
  opModel : Option Val
  deriving DecidableEq, Repr

/-- The body of MockQueryExecutor.Exec after the nextOp call: the cast
check, the Error short-circuit, the copy of the query model into
op.Model, the length check on op.Args, and the args loop. -/
def execOpApply (op : MockedQueryOperation Err Res Val) (qModel : Val) (args : List Val) :
    ExecOutcome Err Res × Val × List Val × Option Val :=
  match op with
  | .execOp M A R E =>
    match E with
    | some e => (.ret none (some e), qModel, args, M)
    | none =>
      let opModel2 := M.map fun _ => qModel
      if 0 < A.length ∧ A.length ≠ args.length then
        (.panic .argsLenMismatch, qModel, args, opModel2)
      else
        let r := rangeAssign args A 0
        ((if r.2 then .ret R none else .panic .indexOutOfRange), qModel, r.1, opModel2)
  | .scanOp _ _ _ => (.panic (.typeMismatch "MockExec"), qModel, args, none)
  | .existsOp _ _ => (.panic (.typeMismatch "MockExec"), qModel, args, none)

/-- MockQueryExecutor.Exec: consume the next operation via nextOp
(panicking on exhaustion), then run the Exec body on it. The context and
the query (beyond its registered model value) are never used. -/
def MockQueryExecutor.Exec (ex : MockQueryExecutor Err Res Val) (ctx : Ctx)
    (qModel : Val) (args : List Val) : ExecCall Err Res Val :=
  match ex.nextOp with
  | (ex1, none) => ⟨ex1, .panic (.exhausted ex.idx ex.Ops.length), qModel, args, none⟩
  | (ex1, some nop) =>
    let r := execOpApply nop qModel args
    ⟨ex1, r.1, r.2.1, r.2.2.1, r.2.2.2⟩

/-- Outcome of a call to Scan: a panic, or a returned error value
(none for the nil return on success). -/
inductive ScanOutcome (Err : Type) : Type where
  | panic (k : PanicKind)
  | ret (error : Option Err)
  deriving DecidableEq, Repr

/-- Everything observable after a call to Scan. -/
structure ScanCall (Err Res Val : Type) : Type where
  ex : MockQueryExecutor Err Res Val
  outcome : ScanOutcome Err
  qModel : Val
  args : List Val
  deriving DecidableEq, Repr

/-- The body of MockQueryExecutor.Scan after the nextOp call: the cast
check, the Error short-circuit, the copy of op.Model into the query
model, and the args loop (with no length check before it). -/
def scanOpApply (op : MockedQueryOperation Err Res Val) (qModel : Val) (args : List Val) :
    ScanOutcome Err × Val × List Val :=
  match op with
  | .scanOp M A E =>
    match E with
    | some e => (.ret (some e), qModel, args)
    | none =>
      let qModel2 := match M with
        | some m => m
        | none => qModel
      let r := rangeAssign args A 0
      ((if r.2 then .ret none else .panic .indexOutOfRange), qModel2, r.1)
  | .execOp _ _ _ _ => (.panic (.typeMismatch "MockScan"), qModel, args)
  | .existsOp _ _ => (.panic (.typeMismatch "MockScan"), qModel, args)

/-- MockQueryExecutor.Scan: consume the next operation via nextOp
(panicking on exhaustion), then run the Scan body on it. -/
def MockQueryExecutor.Scan (ex : MockQueryExecutor Err Res Val) (ctx : Ctx)
    (qModel : Val) (args : List Val) : ScanCall Err Res Val :=
  match ex.nextOp with
  | (ex1, none) => ⟨ex1, .panic (.exhausted ex.idx ex.Ops.length), qModel, args⟩
  | (ex1, some nop) =>
    let r := scanOpApply nop qModel args
    ⟨ex1, r.1, r.2.1, r.2.2⟩

/-- Outcome of a call to Exists: a panic, or a returned pair
(bool, error). -/
inductive ExistsOutcome (Err : Type) : Type where
  | panic (k : PanicKind)
  | ret (found : Bool) (error : Option Err)
  deriving DecidableEq, Repr

/-- Everything observable after a call to Exists. -/
structure ExistsCall (Err Res Val : Type) : Type where
  ex : MockQueryExecutor Err Res Val
  outcome : ExistsOutcome Err
  deriving DecidableEq, Repr

/-- The body of MockQueryExecutor.Exists after the nextOp call: the cast
check, the Error short-circuit returning (false, Error), else
(Exists, nil). -/
def existsOpApply (op : MockedQueryOperation Err Res Val) : ExistsOutcome Err :=
  match op with
  | .existsOp b E =>
    match E with
    | some e => .ret false (some e)
    | none => .ret b none
  | .execOp _ _ _ _ => .panic (.typeMismatch "MockExists")
  | .scanOp _ _ _ => .panic (.typeMismatch "MockExists")

/-- MockQueryExecutor.Exists: consume the next operation via nextOp
(panicking on exhaustion), then run the Exists body on it. -/
def MockQueryExecutor.Exists (ex : MockQueryExecutor Err Res Val) (ctx : Ctx)
    (qModel : Val) : ExistsCall Err Res Val :=
  match ex.nextOp with
  | (ex1, none) => ⟨ex1, .panic (.exhausted ex.idx ex.Ops.length)⟩
  | (ex1, some nop) => ⟨ex1, existsOpApply nop⟩

/-- One call to any of the three mock methods, with its arguments. -/
inductive Call (Ctx Err Res Val : Type) : Type where
  | execC (ctx : Ctx) (qModel : Val) (args : List Val)
  | scanC (ctx : Ctx) (qModel : Val) (args : List Val)
  | existsC (ctx : Ctx) (qModel : Val)

/-- The mock state after one call (the state a recover would observe,
also when the call panicked). -/
def doCall (ex : MockQueryExecutor Err Res Val) :
    Call Ctx Err Res Val → MockQueryExecutor Err Res Val
  | .execC c q a => (ex.Exec c q a).ex
  | .scanC c q a => (ex.Scan c q a).ex
  | .existsC c q => (ex.Exists c q).ex

/-- The mock state after a sequence of calls. -/
def runCalls (ex : MockQueryExecutor Err Res Val) :
    List (Call Ctx Err Res Val) → MockQueryExecutor Err Res Val
  | [] => ex
  | c :: cs => runCalls (doCall ex c) cs

/-- ExecQuery: the interface shape expected from bun queries run through
Exec, as a record of its two methods; GetModel stands for the value
reached through GetModel().Value(). -/
structure ExecQuery (Ctx Err Res Val : Type) : Type where
  Exec : Ctx → List Val → Option Res × Option Err
  GetModel : Val

/-- ScanQuery: the interface shape expected from bun queries run through
Scan. -/
structure ScanQuery (Ctx Err Val : Type) : Type where
  Scan : Ctx → List Val → Option Err
  GetModel : Val

/-- ExistsQuery: the interface shape expected from bun queries run
through Exists. -/
structure ExistsQuery (Ctx Err Val : Type) : Type where
  Exists : Ctx → Bool × Option Err
  GetModel : Val

/-- QueryRealizer: the empty struct whose methods execute the query they
are given. -/
structure QueryRealizer : Type where
  unit : Unit

/-- QueryRealizer.Exec returns q.Exec(ctx, args...). -/
def QueryRealizer.Exec (_ : QueryRealizer) (ctx : Ctx)
    (q : ExecQuery Ctx Err Res Val) (args : List Val) : Option Res × Option Err :=
  q.Exec ctx args

/-- QueryRealizer.Scan returns q.Scan(ctx, args...). -/
def QueryRealizer.Scan (_ : QueryRealizer) (ctx : Ctx)
    (q : ScanQuery Ctx Err Val) (args : List Val) : Option Err :=
  q.Scan ctx args

/-- QueryRealizer.Exists returns q.Exists(ctx). -/
def QueryRealizer.Exists (_ : QueryRealizer) (ctx : Ctx)
    (q : ExistsQuery Ctx Err Val) : Bool × Option Err :=
  q.Exists ctx

/-- nextOp on a non-exhausted executor advances the cursor by one and
yields the entry at the old cursor. -/
theorem nextOp_of_lt (ex : MockQueryExecutor Err Res Val) (h : ex.idx < ex.Ops.length) :
    ex.nextOp = (⟨ex.Ops, ex.idx + 1⟩, some (ex.Ops.get ⟨ex.idx, h⟩)) := by
  unfold MockQueryExecutor.nextOp
  rw [dif_neg (Nat.not_le.mpr h)]

/-- nextOp on an exhausted executor leaves the state unchanged and
yields nothing. -/
theorem nextOp_of_ge (ex : MockQueryExecutor Err Res Val) (h : ex.Ops.length ≤ ex.idx) :
    ex.nextOp = (ex, none) := by
  unfold MockQueryExecutor.nextOp
  rw [dif_pos h]

/-- Characterization of Exec on a non-exhausted executor. -/
theorem Exec_of_lt (ex : MockQueryExecutor Err Res Val) (ctx : Ctx) (qm : Val)
    (args : List Val) (h : ex.idx < ex.Ops.length) :
    ex.Exec ctx qm args =
      ⟨⟨ex.Ops, ex.idx + 1⟩,
        (execOpApply (ex.Ops.get ⟨ex.idx, h⟩) qm args).1,
        (execOpApply (ex.Ops.get ⟨ex.idx, h⟩) qm args).2.1,
        (execOpApply (ex.Ops.get ⟨ex.idx, h⟩) qm args).2.2.1,
        (execOpApply (ex.Ops.get ⟨ex.idx, h⟩) qm args).2.2.2⟩ := by
  unfold MockQueryExecutor.Exec
  rw [nextOp_of_lt ex h]

/-- Characterization of Exec on an exhausted executor. -/
theorem Exec_of_ge (ex : MockQueryExecutor Err Res Val) (ctx : Ctx) (qm : Val)
    (args : List Val) (h : ex.Ops.length ≤ ex.idx) :
    ex.Exec ctx qm args =
      ⟨ex, .panic (.exhausted ex.idx ex.Ops.length), qm, args, none⟩ := by
  unfold MockQueryExecutor.Exec
  rw [nextOp_of_ge ex h]

/-- Characterization of Scan on a non-exhausted executor. -/
theorem Scan_of_lt (ex : MockQueryExecutor Err Res Val) (ctx : Ctx) (qm : Val)
    (args : List Val) (h : ex.idx < ex.Ops.length) :
    ex.Scan ctx qm args =
      ⟨⟨ex.Ops, ex.idx + 1⟩,
        (scanOpApply (ex.Ops.get ⟨ex.idx, h⟩) qm args).1,
        (scanOpApply (ex.Ops.get ⟨ex.idx, h⟩) qm args).2.1,
        (scanOpApply (ex.Ops.get ⟨ex.idx, h⟩) qm args).2.2⟩ := by
  unfold MockQueryExecutor.Scan
  rw [nextOp_of_lt ex h]

/-- Characterization of Scan on an exhausted executor. -/
theorem Scan_of_ge (ex : MockQueryExecutor Err Res Val) (ctx : Ctx) (qm : Val)
    (args : List Val) (h : ex.Ops.length ≤ ex.idx) :
    ex.Scan ctx qm args =
      ⟨ex, .panic (.exhausted ex.idx ex.Ops.length), qm, args⟩ := by
  unfold MockQueryExecutor.Scan
  rw [nextOp_of_ge ex h]

/-- Characterization of Exists on a non-exhausted executor. -/
theorem Exists_of_lt (ex : MockQueryExecutor Err Res Val) (ctx : Ctx) (qm : Val)
    (h : ex.idx < ex.Ops.length) :
    ex.Exists ctx qm =
      ⟨⟨ex.Ops, ex.idx + 1⟩, existsOpApply (ex.Ops.get ⟨ex.idx, h⟩)⟩ := by
  unfold MockQueryExecutor.Exists
  rw [nextOp_of_lt ex h]

/-- Characterization of Exists on an exhausted executor. -/
theorem Exists_of_ge (ex : MockQueryExecutor Err Res Val) (ctx : Ctx) (qm : Val)
    (h : ex.Ops.length ≤ ex.idx) :
    ex.Exists ctx qm = ⟨ex, .panic (.exhausted ex.idx ex.Ops.length)⟩ := by
  unfold MockQueryExecutor.Exists
  rw [nextOp_of_ge ex h]

/-- The args loop succeeds exactly when the operation args fit: either
there is nothing to assign or the last written index is in bounds. -/
theorem rangeAssign_snd_true_iff (A : List Val) : ∀ (args : List Val) (i : Nat),
    (rangeAssign args A i).2 = true ↔ (A.length = 0 ∨ i + A.length ≤ args.length) := by
  induction A with
  | nil =>
    intro args i
    simp [rangeAssign]
  | cons v rest ih =>
    intro args i
    simp only [rangeAssign, List.length_cons]
    by_cases hi : i < args.length
    · rw [if_pos hi, ih (args.set i v) (i + 1)]
      simp only [List.length_set]
      omega
    · rw [if_neg hi]
      constructor
      · intro hc
        simp at hc
      · intro hc
        exfalso
        omega

/-- Setting index i and then taking i+1 elements appends the new value
to the first i elements. -/
theorem take_set_succ (v : Val) : ∀ (l : List Val) (i : Nat), i < l.length →
    (l.set i v).take (i + 1) = l.take i ++ [v] := by
  intro l
  induction l with
  | nil =>
    intro i hi
    simp at hi
  | cons x xs ih =>
    intro i hi
    cases i with
    | zero => simp
    | succ j =>
      have hj : j < xs.length := by
        simpa using hi
      simp only [List.set_cons_succ, List.take_succ_cons, ih j hj, List.cons_append]

/-- The success of the args loop depends only on the length of the
caller-supplied args, not on their values. -/
theorem rangeAssign_snd_len_eq (A args1 args2 : List Val) (i : Nat)
    (h : args1.length = args2.length) :
    (rangeAssign args1 A i).2 = (rangeAssign args2 A i).2 := by
  have h1 := rangeAssign_snd_true_iff A args1 i
  have h2 := rangeAssign_snd_true_iff A args2 i
  rw [h] at h1
  rw [← h2] at h1
  cases hb1 : (rangeAssign args1 A i).2 <;> cases hb2 : (rangeAssign args2 A i).2
  · rfl
  · rw [hb1, hb2] at h1
    simp at h1
  · rw [hb1, hb2] at h1
    simp at h1
  · rfl

/-- When the remaining operation args exactly fill the remaining arg
slots, the loop succeeds and overwrites those slots with them. -/
theorem rangeAssign_of_len_eq (A : List Val) : ∀ (args : List Val) (i : Nat),
    i + A.length = args.length →
    rangeAssign args A i = (args.take i ++ A, true) := by
  induction A with
  | nil =>
    intro args i h
    have hi : i = args.length := by
      simpa using h
    subst hi
    simp [rangeAssign, List.take_length]
  | cons v rest ih =>
    intro args i h
    have hi : i < args.length := by
      simp only [List.length_cons] at h
      omega
    simp only [rangeAssign, if_pos hi]
    rw [ih (args.set i v) (i + 1) (by simp only [List.length_set]; simp only [List.length_cons] at h; omega)]
    rw [take_set_succ v args i hi]
    simp

/-- When the operation args and the caller args have the same length,
the loop succeeds and the caller args end up equal to the operation
args. -/
theorem rangeAssign_zero_len_eq (A args : List Val) (h : A.length = args.length) :
    rangeAssign args A 0 = (A, true) := by
  have h2 := rangeAssign_of_len_eq A args 0 (by omega)
  simpa using h2

/-- Exec body on a scripted error: the error is returned verbatim and
no cell is written. -/
theorem execOpApply_error (M : Option Val) (A : List Val) (R : Option Res) (e : Err)
    (qm : Val) (args : List Val) :
    execOpApply (.execOp M A R (some e)) qm args = (.ret none (some e), qm, args, M) := rfl

/-- Scan body on a scripted error: the error is returned verbatim and
no cell is written. -/
theorem scanOpApply_error (M : Option Val) (A : List Val) (e : Err)
    (qm : Val) (args : List Val) :
    scanOpApply (.scanOp M A (some e) : MockedQueryOperation Err Res Val) qm args =
      (.ret (some e), qm, args) := rfl

/-- Exists body on a scripted error returns (false, the error). -/
theorem existsOpApply_error (b : Bool) (e : Err) :
    existsOpApply (.existsOp b (some e) : MockedQueryOperation Err Res Val) =
      .ret false (some e) := rfl

/-- Exists body without a scripted error returns (Exists, nil). -/
theorem existsOpApply_ok (b : Bool) :
    existsOpApply (.existsOp b none : MockedQueryOperation Err Res Val) = .ret b none := rfl

/-- Exec body on the length-check panic branch. -/
theorem execOpApply_lenPanic (M : Option Val) (A : List Val) (R : Option Res)
    (qm : Val) (args : List Val) (hc : 0 < A.length ∧ A.length ≠ args.length) :
    execOpApply (.execOp M A R none : MockedQueryOperation Err Res Val) qm args =
      (.panic .argsLenMismatch, qm, args, M.map fun _ => qm) := by
  simp [execOpApply, hc]

/-- Exec body on the successful branch. -/
theorem execOpApply_ok (M : Option Val) (A : List Val) (R : Option Res)
    (qm : Val) (args : List Val) (hc : ¬(0 < A.length ∧ A.length ≠ args.length))
    (ht : (rangeAssign args A 0).2 = true) :
    execOpApply (.execOp M A R none : MockedQueryOperation Err Res Val) qm args =
      (.ret R none, qm, (rangeAssign args A 0).1, M.map fun _ => qm) := by
  simp [execOpApply, hc, ht]

/-- Exec body when the args loop runs out of bounds. -/
theorem execOpApply_idxPanic (M : Option Val) (A : List Val) (R : Option Res)
    (qm : Val) (args : List Val) (hc : ¬(0 < A.length ∧ A.length ≠ args.length))
    (ht : (rangeAssign args A 0).2 = false) :
    execOpApply (.execOp M A R none : MockedQueryOperation Err Res Val) qm args =
      (.panic .indexOutOfRange, qm, (rangeAssign args A 0).1, M.map fun _ => qm) := by
  simp [execOpApply, hc, ht]

/-- Scan body without a scripted error, when the args loop succeeds. -/
theorem scanOpApply_ok (M : Option Val) (A : List Val) (qm : Val) (args : List Val)
    (ht : (rangeAssign args A 0).2 = true) :
    scanOpApply (.scanOp M A none : MockedQueryOperation Err Res Val) qm args =
      (.ret none, M.getD qm, (rangeAssign args A 0).1) := by
  cases M <;> simp [scanOpApply, ht, Option.getD]

/-- Scan body without a scripted error, when the args loop runs out of
bounds. -/
theorem scanOpApply_idxPanic (M : Option Val) (A : List Val) (qm : Val) (args : List Val)
    (ht : (rangeAssign args A 0).2 = false) :
    scanOpApply (.scanOp M A none : MockedQueryOperation Err Res Val) qm args =
      (.panic .indexOutOfRange, M.getD qm, (rangeAssign args A 0).1) := by
  cases M <;> simp [scanOpApply, ht, Option.getD]

/-- The only panics the Exec body itself can raise are the length check
and the out-of-bounds index. -/
theorem execOpApply_execOp_panic (M : Option Val) (A : List Val) (R : Option Res)
    (E : Option Err) (qm : Val) (args : List Val) (k : PanicKind)
    (hk : (execOpApply (.execOp M A R E) qm args).1 = .panic k) :
    k = .argsLenMismatch ∨ k = .indexOutOfRange := by
  cases E with
  | some e =>
    rw [execOpApply_error M A R e qm args] at hk
    simp at hk
  | none =>
    by_cases hc : 0 < A.length ∧ A.length ≠ args.length
    · rw [execOpApply_lenPanic M A R qm args hc] at hk
      simp at hk
      exact Or.inl hk.symm
    · cases ht : (rangeAssign args A 0).2 with
      | true =>
        rw [execOpApply_ok M A R qm args hc ht] at hk
        simp at hk
      | false =>
        rw [execOpApply_idxPanic M A R qm args hc ht] at hk
        simp at hk
        exact Or.inr hk.symm

/-- The only panic the Scan body itself can raise is the out-of-bounds
index in the args loop; in particular there is no length check. -/
theorem scanOpApply_scanOp_panic (M : Option Val) (A : List Val)
    (E : Option Err) (qm : Val) (args : List Val) (k : PanicKind)
    (hk : (scanOpApply (.scanOp M A E : MockedQueryOperation Err Res Val) qm args).1 = .panic k) :
    k = .indexOutOfRange := by
  cases E with
  | some e =>
    rw [scanOpApply_error M A e qm args] at hk
    simp at hk
  | none =>
    cases ht : (rangeAssign args A 0).2 with
    | true =>
      rw [scanOpApply_ok M A qm args ht] at hk
      simp at hk
    | false =>
      rw [scanOpApply_idxPanic M A qm args ht] at hk
      simp at hk
      exact hk.symm

/-- The Exists body never panics on a MockExistsOperation. -/
theorem existsOpApply_existsOp_no_panic (b : Bool) (E : Option Err) (k : PanicKind)
    (hk : existsOpApply (.existsOp b E : MockedQueryOperation Err Res Val) = .panic k) :
    False := by
  cases E <;> simp [existsOpApply] at hk

/-- The Exec method raises its type-mismatch panic exactly when the
consumed operation is not a MockExecOperation. -/
theorem execOpApply_typeMismatch_iff (op : MockedQueryOperation Err Res Val)
    (qm : Val) (args : List Val) :
    ((execOpApply op qm args).1 = .panic (.typeMismatch "MockExec")) ↔ op.isExec = false := by
  cases op with
  | execOp M A R E =>
    simp only [MockedQueryOperation.isExec, Bool.true_eq_false, iff_false]
    intro hk
    rcases execOpApply_execOp_panic M A R E qm args _ hk with h1 | h1 <;> simp at h1
  | scanOp M A E =>
    simp [execOpApply, MockedQueryOperation.isExec]
  | existsOp b E =>
    simp [execOpApply, MockedQueryOperation.isExec]

/-- The Scan method raises its type-mismatch panic exactly when the
consumed operation is not a MockScanOperation. -/
theorem scanOpApply_typeMismatch_iff (op : MockedQueryOperation Err Res Val)
    (qm : Val) (args : List Val) :
    ((scanOpApply op qm args).1 = .panic (.typeMismatch "MockScan")) ↔ op.isScan = false := by
  cases op with
  | scanOp M A E =>
    simp only [MockedQueryOperation.isScan, Bool.true_eq_false, iff_false]
    intro hk
    have h1 := scanOpApply_scanOp_panic M A E qm args _ hk
    simp at h1
  | execOp M A R E =>
    simp [scanOpApply, MockedQueryOperation.isScan]
  | existsOp b E =>
    simp [scanOpApply, MockedQueryOperation.isScan]

/-- The Exists method raises its type-mismatch panic exactly when the
consumed operation is not a MockExistsOperation. -/
theorem existsOpApply_typeMismatch_iff (op : MockedQueryOperation Err Res Val) :
    (existsOpApply op = (.panic (.typeMismatch "MockExists") : ExistsOutcome Err)) ↔
      op.isExists = false := by
  cases op with
  | existsOp b E =>
    cases E <;> simp [existsOpApply, MockedQueryOperation.isExists]
  | execOp M A R E =>
    simp [existsOpApply, MockedQueryOperation.isExists]
  | scanOp M A E =>
    simp [existsOpApply, MockedQueryOperation.isExists]

/-- The Exec body never raises the exhaustion panic. -/
theorem execOpApply_ne_exhausted (op : MockedQueryOperation Err Res Val)
    (qm : Val) (args : List Val) (r t : Nat) :
    (execOpApply op qm args).1 ≠ .panic (.exhausted r t) := by
  intro hk
  cases op with
  | execOp M A R E =>
    rcases execOpApply_execOp_panic M A R E qm args _ hk with h1 | h1 <;> simp at h1
  | scanOp M A E =>
    simp [execOpApply] at hk
  | existsOp b E =>
    simp [execOpApply] at hk

/-- The Scan body never raises the exhaustion panic. -/
theorem scanOpApply_ne_exhausted (op : MockedQueryOperation Err Res Val)
    (qm : Val) (args : List Val) (r t : Nat) :
    (scanOpApply op qm args).1 ≠ .panic (.exhausted r t) := by
  intro hk
  cases op with
  | scanOp M A E =>
    have h1 := scanOpApply_scanOp_panic M A E qm args _ hk
    simp at h1
  | execOp M A R E =>
    simp [scanOpApply] at hk
  | existsOp b E =>
    simp [scanOpApply] at hk

/-- The Exists body never raises the exhaustion panic. -/
theorem existsOpApply_ne_exhausted (op : MockedQueryOperation Err Res Val) (r t : Nat) :
    existsOpApply op ≠ (.panic (.exhausted r t) : ExistsOutcome Err) := by
  intro hk
  cases op with
  | existsOp b E =>
    exact existsOpApply_existsOp_no_panic b E _ hk
  | execOp M A R E =>
    simp [existsOpApply] at hk
  | scanOp M A E =>
    simp [existsOpApply] at hk

/-- Any non-exhausted call advances the cursor by exactly one and keeps
the Ops slice. -/
theorem doCall_of_lt (ex : MockQueryExecutor Err Res Val) (c : Call Ctx Err Res Val)
    (h : ex.idx < ex.Ops.length) :
    doCall ex c = ⟨ex.Ops, ex.idx + 1⟩ := by
  cases c with
  | execC ctx qm args =>
    simp only [doCall]
    rw [Exec_of_lt ex ctx qm args h]
  | scanC ctx qm args =>
    simp only [doCall]
    rw [Scan_of_lt ex ctx qm args h]
  | existsC ctx qm =>
    simp only [doCall]
    rw [Exists_of_lt ex ctx qm h]

/-- Starting at cursor i, a sequence of calls that fits in the Ops slice
advances the cursor by exactly its length. -/
theorem runCalls_idx (ops : List (MockedQueryOperation Err Res Val)) :
    ∀ (cs : List (Call Ctx Err Res Val)) (i : Nat), i + cs.length ≤ ops.length →
      runCalls ⟨ops, i⟩ cs = ⟨ops, i + cs.length⟩ := by
  intro cs
  induction cs with
  | nil =>
    intro i h
    simp [runCalls]
  | cons c cs ih =>
    intro i h
    have hi : i < ops.length := by
      simp only [List.length_cons] at h
      omega
    simp only [runCalls]
    rw [doCall_of_lt ⟨ops, i⟩ c hi]
    rw [ih (i + 1) (by simp only [List.length_cons] at h; omega)]
    simp only [List.length_cons]
    congr 1
    omega

/-- The value returned by the Exec body depends only on the operation
and the number of caller args, not on the context, the query model or
the arg values. -/
theorem execOpApply_outcome_len_eq (op : MockedQueryOperation Err Res Val)
    (qm1 qm2 : Val) (args1 args2 : List Val) (h : args1.length = args2.length) :
    (execOpApply op qm1 args1).1 = (execOpApply op qm2 args2).1 := by
  cases op with
  | execOp M A R E =>
    cases E with
    | some e => rw [execOpApply_error, execOpApply_error]
    | none =>
      by_cases hc : 0 < A.length ∧ A.length ≠ args1.length
      · have hc2 : 0 < A.length ∧ A.length ≠ args2.length := by
          rw [← h]
          exact hc
        rw [execOpApply_lenPanic M A R qm1 args1 hc, execOpApply_lenPanic M A R qm2 args2 hc2]
      · have hc2 : ¬(0 < A.length ∧ A.length ≠ args2.length) := by
          rw [← h]
          exact hc
        cases ht : (rangeAssign args1 A 0).2 with
        | true =>
          have ht2 : (rangeAssign args2 A 0).2 = true := by
            rw [← rangeAssign_snd_len_eq A args1 args2 0 h]
            exact ht
          rw [execOpApply_ok M A R qm1 args1 hc ht, execOpApply_ok M A R qm2 args2 hc2 ht2]
        | false =>
          have ht2 : (rangeAssign args2 A 0).2 = false := by
            rw [← rangeAssign_snd_len_eq A args1 args2 0 h]
            exact ht
          rw [execOpApply_idxPanic M A R qm1 args1 hc ht,
            execOpApply_idxPanic M A R qm2 args2 hc2 ht2]
  | scanOp M A E => rfl
  | existsOp b E => rfl

/-- The value returned by the Scan body depends only on the operation
and the number of caller args. -/
theorem scanOpApply_outcome_len_eq (op : MockedQueryOperation Err Res Val)
    (qm1 qm2 : Val) (args1 args2 : List Val) (h : args1.length = args2.length) :
    (scanOpApply op qm1 args1).1 = (scanOpApply op qm2 args2).1 := by
  cases op with
  | scanOp M A E =>
    cases E with
    | some e => rw [scanOpApply_error, scanOpApply_error]
    | none =>
      cases ht : (rangeAssign args1 A 0).2 with
      | true =>
        have ht2 : (rangeAssign args2 A 0).2 = true := by
          rw [← rangeAssign_snd_len_eq A args1 args2 0 h]
          exact ht
        rw [scanOpApply_ok M A qm1 args1 ht, scanOpApply_ok M A qm2 args2 ht2]
      | false =>
        have ht2 : (rangeAssign args2 A 0).2 = false := by
          rw [← rangeAssign_snd_len_eq A args1 args2 0 h]
          exact ht
        rw [scanOpApply_idxPanic M A qm1 args1 ht, scanOpApply_idxPanic M A qm2 args2 ht2]
  | execOp M A R E => rfl
  | existsOp b E => rfl

/-- The Scan body never raises the length-check panic. -/
theorem scanOpApply_ne_argsLen (op : MockedQueryOperation Err Res Val)
    (qm : Val) (args : List Val) :
    (scanOpApply op qm args).1 ≠ .panic .argsLenMismatch := by
  intro hk
  cases op with
  | scanOp M A E =>
    have h1 := scanOpApply_scanOp_panic M A E qm args _ hk
    simp at h1
  | execOp M A R E =>
    simp [scanOpApply] at hk
  | existsOp b E =>
    simp [scanOpApply] at hk

/-- C1: the Nth call consumes exactly the Nth entry of Ops: any
non-exhausted call to Exec, Scan or Exists advances the cursor by
exactly one while keeping Ops, its outcome is a function of the entry at
the old cursor (and the call arguments) alone, never of an earlier or
later entry, and a sequence of calls that fits in the Ops slice moves
the cursor from 0 to its length, so the Nth call (counting from 1) runs
with cursor N-1 and consumes entry N-1. -/
theorem mock_nth_call_consumes_nth_entry (ex : MockQueryExecutor Err Res Val)
    (ctx : Ctx) (qm : Val) (args : List Val) (h : ex.idx < ex.Ops.length)
    (cs : List (Call Ctx Err Res Val)) (hcs : cs.length ≤ ex.Ops.length) :
    ((ex.Exec ctx qm args).ex = ⟨ex.Ops, ex.idx + 1⟩ ∧
      (ex.Exec ctx qm args).outcome = (execOpApply (ex.Ops.get ⟨ex.idx, h⟩) qm args).1) ∧
    ((ex.Scan ctx qm args).ex = ⟨ex.Ops, ex.idx + 1⟩ ∧
      (ex.Scan ctx qm args).outcome = (scanOpApply (ex.Ops.get ⟨ex.idx, h⟩) qm args).1) ∧
    ((ex.Exists ctx qm).ex = ⟨ex.Ops, ex.idx + 1⟩ ∧
      (ex.Exists ctx qm).outcome = existsOpApply (ex.Ops.get ⟨ex.idx, h⟩)) ∧
    runCalls ⟨ex.Ops, 0⟩ cs = ⟨ex.Ops, cs.length⟩ := by
  rw [Exec_of_lt ex ctx qm args h, Scan_of_lt ex ctx qm args h, Exists_of_lt ex ctx qm h]
  refine ⟨⟨rfl, rfl⟩, ⟨rfl, rfl⟩, ⟨rfl, rfl⟩, ?_⟩
  have h0 := runCalls_idx ex.Ops cs 0 (by omega)
  simpa using h0

/-- C2: with at least one remaining operation, each mock method raises
its type-mismatch panic exactly when the next operation is not of the
kind matching the method. -/
theorem mock_type_mismatch_panic_iff (ex : MockQueryExecutor Err Res Val)
    (ctx : Ctx) (qm : Val) (args : List Val) (h : ex.idx < ex.Ops.length) :
    ((ex.Exec ctx qm args).outcome = .panic (.typeMismatch "MockExec") ↔
      (ex.Ops.get ⟨ex.idx, h⟩).isExec = false) ∧
    ((ex.Scan ctx qm args).outcome = .panic (.typeMismatch "MockScan") ↔
      (ex.Ops.get ⟨ex.idx, h⟩).isScan = false) ∧
    ((ex.Exists ctx qm).outcome = .panic (.typeMismatch "MockExists") ↔
      (ex.Ops.get ⟨ex.idx, h⟩).isExists = false) := by
  rw [Exec_of_lt ex ctx qm args h, Scan_of_lt ex ctx qm args h, Exists_of_lt ex ctx qm h]
  exact ⟨execOpApply_typeMismatch_iff (ex.Ops.get ⟨ex.idx, h⟩) qm args,
    scanOpApply_typeMismatch_iff (ex.Ops.get ⟨ex.idx, h⟩) qm args,
    existsOpApply_typeMismatch_iff (ex.Ops.get ⟨ex.idx, h⟩)⟩

/-- C3: a call to any mock method raises the exhaustion panic exactly
when idx has reached the length of Ops at the time of the call, and in
that case the state (so also the cursor) is unchanged. -/
theorem mock_exhaustion_panic_iff (ex : MockQueryExecutor Err Res Val)
    (ctx : Ctx) (qm : Val) (args : List Val) :
    ((ex.Exec ctx qm args).outcome = .panic (.exhausted ex.idx ex.Ops.length) ↔
      ex.Ops.length ≤ ex.idx) ∧
    ((ex.Scan ctx qm args).outcome = .panic (.exhausted ex.idx ex.Ops.length) ↔
      ex.Ops.length ≤ ex.idx) ∧
    ((ex.Exists ctx qm).outcome = .panic (.exhausted ex.idx ex.Ops.length) ↔
      ex.Ops.length ≤ ex.idx) ∧
    (ex.Ops.length ≤ ex.idx →
      (ex.Exec ctx qm args).ex = ex ∧ (ex.Scan ctx qm args).ex = ex ∧
        (ex.Exists ctx qm).ex = ex) := by
  by_cases hle : ex.Ops.length ≤ ex.idx
  · rw [Exec_of_ge ex ctx qm args hle, Scan_of_ge ex ctx qm args hle, Exists_of_ge ex ctx qm hle]
    exact ⟨⟨fun _ => hle, fun _ => rfl⟩, ⟨fun _ => hle, fun _ => rfl⟩,
      ⟨fun _ => hle, fun _ => rfl⟩, fun _ => ⟨rfl, rfl, rfl⟩⟩
  · have h := Nat.not_le.mp hle
    rw [Exec_of_lt ex ctx qm args h, Scan_of_lt ex ctx qm args h, Exists_of_lt ex ctx qm h]
    exact ⟨⟨fun hk => absurd hk (execOpApply_ne_exhausted _ qm args _ _), fun hc => absurd hc hle⟩,
      ⟨fun hk => absurd hk (scanOpApply_ne_exhausted _ qm args _ _), fun hc => absurd hc hle⟩,
      ⟨fun hk => absurd hk (existsOpApply_ne_exhausted _ _ _), fun hc => absurd hc hle⟩,
      fun hc => absurd hc hle⟩

/-- C4: a scripted error on the consumed operation of matching kind is
returned verbatim: Exec returns (nil, Error), Scan returns Error, and
Exists returns (false, Error). -/
theorem mock_scripted_error_verbatim (ex : MockQueryExecutor Err Res Val)
    (ctx : Ctx) (qm : Val) (args : List Val) (h : ex.idx < ex.Ops.length)
    (Me : Option Val) (Ae : List Val) (Re : Option Res) (e1 : Err)
    (Ms : Option Val) (As : List Val) (e2 : Err) (b : Bool) (e3 : Err) :
    (ex.Ops.get ⟨ex.idx, h⟩ = .execOp Me Ae Re (some e1) →
      (ex.Exec ctx qm args).outcome = .ret none (some e1)) ∧
    (ex.Ops.get ⟨ex.idx, h⟩ = .scanOp Ms As (some e2) →
      (ex.Scan ctx qm args).outcome = .ret (some e2)) ∧
    (ex.Ops.get ⟨ex.idx, h⟩ = .existsOp b (some e3) →
      (ex.Exists ctx qm).outcome = .ret false (some e3)) := by
  rw [Exec_of_lt ex ctx qm args h, Scan_of_lt ex ctx qm args h, Exists_of_lt ex ctx qm h]
  refine ⟨fun hop => ?_, fun hop => ?_, fun hop => ?_⟩ <;> rw [hop] <;> rfl

/-- C5: the realizer is a pure pass-through: each of its methods
returns exactly what the corresponding query method returns, adding no
behaviour of its own. -/
theorem realizer_pass_through (r : QueryRealizer) (ctx : Ctx)
    (qe : ExecQuery Ctx Err Res Val) (qs : ScanQuery Ctx Err Val)
    (qx : ExistsQuery Ctx Err Val) (args : List Val) :
    r.Exec ctx qe args = qe.Exec ctx args ∧
    r.Scan ctx qs args = qs.Scan ctx args ∧
    r.Exists ctx qx = qx.Exists ctx :=
  ⟨rfl, rfl, rfl⟩

/-- C6 counterexample: a Scan that consumes a MockScanOperation with nil
Error and non-nil Model need not return nil: with Args of length 1 and
no caller args, the args loop indexes out of bounds and the call panics
instead of returning nil. -/
theorem scan_returns_nil_counterexample :
    ((⟨[.scanOp (some 5) [7] none], 0⟩ : MockQueryExecutor Nat Nat Nat).Ops.get ⟨0, by decide⟩ =
        .scanOp (some 5) [7] none) ∧
    ¬ (((⟨[.scanOp (some 5) [7] none], 0⟩ : MockQueryExecutor Nat Nat Nat).Scan
        (0 : Nat) 0 []).outcome = ScanOutcome.ret none) := by
  decide

/-- C6 amended: when Scan consumes a MockScanOperation whose Error is
nil and whose Model is non-nil, the operation's Model value is assigned
into the model registered on the query; and provided the operation's
Args do not outnumber the supplied args (so the args loop stays in
bounds), the call returns nil. -/
theorem scan_model_assign_amended (ex : MockQueryExecutor Err Res Val)
    (ctx : Ctx) (qm : Val) (args : List Val) (h : ex.idx < ex.Ops.length)
    (m : Val) (A : List Val) (hop : ex.Ops.get ⟨ex.idx, h⟩ = .scanOp (some m) A none) :
    (ex.Scan ctx qm args).qModel = m ∧
    (A.length ≤ args.length → (ex.Scan ctx qm args).outcome = .ret none) := by
  rw [Scan_of_lt ex ctx qm args h, hop]
  constructor
  · rfl
  · intro hlen
    have ht : (rangeAssign args A 0).2 = true := by
      rw [rangeAssign_snd_true_iff]
      omega
    rw [scanOpApply_ok (some m) A qm args ht]

/-- C7: the values returned by the mock methods depend only on the Ops
slice and the cursor, never on the context, the query or (beyond their
number) the caller args: two calls from the same mock state with the
same argument count return identical outcomes. -/
theorem mock_outcome_independent_of_query_and_ctx (ex : MockQueryExecutor Err Res Val)
    (ctx1 ctx2 : Ctx) (qm1 qm2 : Val) (args1 args2 : List Val)
    (h : args1.length = args2.length) :
    (ex.Exec ctx1 qm1 args1).outcome = (ex.Exec ctx2 qm2 args2).outcome ∧
    (ex.Scan ctx1 qm1 args1).outcome = (ex.Scan ctx2 qm2 args2).outcome ∧
    (ex.Exists ctx1 qm1).outcome = (ex.Exists ctx2 qm2).outcome := by
  by_cases hlt : ex.idx < ex.Ops.length
  · rw [Exec_of_lt ex ctx1 qm1 args1 hlt, Exec_of_lt ex ctx2 qm2 args2 hlt,
      Scan_of_lt ex ctx1 qm1 args1 hlt, Scan_of_lt ex ctx2 qm2 args2 hlt,
      Exists_of_lt ex ctx1 qm1 hlt, Exists_of_lt ex ctx2 qm2 hlt]
    exact ⟨execOpApply_outcome_len_eq (ex.Ops.get ⟨ex.idx, hlt⟩) qm1 qm2 args1 args2 h,
      scanOpApply_outcome_len_eq (ex.Ops.get ⟨ex.idx, hlt⟩) qm1 qm2 args1 args2 h, rfl⟩
  · have hge := Nat.not_lt.mp hlt
    rw [Exec_of_ge ex ctx1 qm1 args1 hge, Exec_of_ge ex ctx2 qm2 args2 hge,
      Scan_of_ge ex ctx1 qm1 args1 hge, Scan_of_ge ex ctx2 qm2 args2 hge,
      Exists_of_ge ex ctx1 qm1 hge, Exists_of_ge ex ctx2 qm2 hge]
    exact ⟨rfl, rfl, rfl⟩

/-- C8: when Exec consumes a MockExecOperation with nil Error and
non-empty Args, the length-check panic fires exactly when the length of
the operation's Args differs from the number of caller args; when they
agree each caller arg receives the corresponding operation arg and
(Result, nil) is returned. Scan never raises such a length-check
panic. -/
theorem exec_length_check_scan_unchecked (ex : MockQueryExecutor Err Res Val)
    (ctx : Ctx) (qm : Val) (args : List Val) (h : ex.idx < ex.Ops.length)
    (M : Option Val) (A : List Val) (R : Option Res)
    (hop : ex.Ops.get ⟨ex.idx, h⟩ = .execOp M A R none) (hA : A ≠ [])
    (ex2 : MockQueryExecutor Err Res Val) (ctx2 : Ctx) (qm2 : Val) (args2 : List Val) :
    ((ex.Exec ctx qm args).outcome = .panic .argsLenMismatch ↔ A.length ≠ args.length) ∧
    (A.length = args.length →
      (ex.Exec ctx qm args).outcome = .ret R none ∧ (ex.Exec ctx qm args).args = A) ∧
    (ex2.Scan ctx2 qm2 args2).outcome ≠ .panic .argsLenMismatch := by
  have hApos : 0 < A.length := List.length_pos.mpr hA
  rw [Exec_of_lt ex ctx qm args h, hop]
  refine ⟨?_, fun hlen => ?_, ?_⟩
  · by_cases hlen : A.length = args.length
    · have hc : ¬(0 < A.length ∧ A.length ≠ args.length) := by
        intro hc
        exact hc.2 hlen
      have ht : (rangeAssign args A 0).2 = true := by
        rw [rangeAssign_zero_len_eq A args hlen]
      rw [execOpApply_ok M A R qm args hc ht]
      simp [hlen]
    · have hc : 0 < A.length ∧ A.length ≠ args.length := ⟨hApos, hlen⟩
      rw [execOpApply_lenPanic M A R qm args hc]
      simp [hlen]
  · have hc : ¬(0 < A.length ∧ A.length ≠ args.length) := by
      intro hc
      exact hc.2 hlen
    have ht : (rangeAssign args A 0).2 = true := by
      rw [rangeAssign_zero_len_eq A args hlen]
    rw [execOpApply_ok M A R qm args hc ht]
    refine ⟨rfl, ?_⟩
    show (rangeAssign args A 0).1 = A
    rw [rangeAssign_zero_len_eq A args hlen]
  · by_cases hlt2 : ex2.idx < ex2.Ops.length
    · rw [Scan_of_lt ex2 ctx2 qm2 args2 hlt2]
      exact scanOpApply_ne_argsLen (ex2.Ops.get ⟨ex2.idx, hlt2⟩) qm2 args2
    · rw [Scan_of_ge ex2 ctx2 qm2 args2 (Nat.not_lt.mp hlt2)]
      intro hk
      simp at hk

/-- C9: when the consumed operation of matching kind carries a non-nil
Error, the call writes neither the query model nor the caller args nor
the cell behind op.Model, but the cursor has still advanced by one. -/
theorem error_branch_no_writes_cursor_advances (ex : MockQueryExecutor Err Res Val)
    (ctx : Ctx) (qm : Val) (args : List Val) (h : ex.idx < ex.Ops.length)
    (Me : Option Val) (Ae : List Val) (Re : Option Res) (e1 : Err)
    (Ms : Option Val) (As : List Val) (e2 : Err) (b : Bool) (e3 : Err) :
    (ex.Ops.get ⟨ex.idx, h⟩ = .execOp Me Ae Re (some e1) →
      (ex.Exec ctx qm args).qModel = qm ∧ (ex.Exec ctx qm args).args = args ∧
      (ex.Exec ctx qm args).opModel = Me ∧ (ex.Exec ctx qm args).ex.idx = ex.idx + 1) ∧
    (ex.Ops.get ⟨ex.idx, h⟩ = .scanOp Ms As (some e2) →
      (ex.Scan ctx qm args).qModel = qm ∧ (ex.Scan ctx qm args).args = args ∧
      (ex.Scan ctx qm args).ex.idx = ex.idx + 1) ∧
    (ex.Ops.get ⟨ex.idx, h⟩ = .existsOp b (some e3) →
      (ex.Exists ctx qm).ex.idx = ex.idx + 1) := by
  rw [Exec_of_lt ex ctx qm args h, Scan_of_lt ex ctx qm args h, Exists_of_lt ex ctx qm h]
  refine ⟨fun hop => ?_, fun hop => ?_, fun hop => ?_⟩
  · rw [hop]
    exact ⟨rfl, rfl, rfl, rfl⟩
  · rw [hop]
    exact ⟨rfl, rfl, rfl⟩
  · rw [hop]

/-- C10: the model copy of Exec runs opposite to Scan's: Exec with a
consumed MockExecOperation with non-nil Model and nil Error writes the
query's current model value into the cell behind op.Model (leaving the
query model untouched), whereas Scan with a consumed MockScanOperation
with non-nil Model and nil Error writes the operation's Model value
into the query model. -/
theorem exec_scan_model_copy_directions (ex : MockQueryExecutor Err Res Val)
    (ctx : Ctx) (qm : Val) (args : List Val) (h : ex.idx < ex.Ops.length)
    (m0 : Val) (Ae : List Val) (Re : Option Res) (m1 : Val) (As : List Val) :
    (ex.Ops.get ⟨ex.idx, h⟩ = .execOp (some m0) Ae Re none →
      (ex.Exec ctx qm args).opModel = some qm ∧ (ex.Exec ctx qm args).qModel = qm) ∧
    (ex.Ops.get ⟨ex.idx, h⟩ = .scanOp (some m1) As none →
      (ex.Scan ctx qm args).qModel = m1) := by
  rw [Exec_of_lt ex ctx qm args h, Scan_of_lt ex ctx qm args h]
  constructor
  · intro hop
    rw [hop]
    by_cases hc : 0 < Ae.length ∧ Ae.length ≠ args.length
    · rw [execOpApply_lenPanic (some m0) Ae Re qm args hc]
      exact ⟨rfl, rfl⟩
    · cases ht : (rangeAssign args Ae 0).2 with
      | true =>
        rw [execOpApply_ok (some m0) Ae Re qm args hc ht]
        exact ⟨rfl, rfl⟩
      | false =>
        rw [execOpApply_idxPanic (some m0) Ae Re qm args hc ht]
        exact ⟨rfl, rfl⟩
  · intro hop
    rw [hop]
    rfl

/-- Witness for C1 at a concrete executor and a one-call sequence. -/
theorem mock_nth_call_consumes_nth_entry_witness :
    (0 : Nat) < 1 ∧ (1 : Nat) ≤ 1 ∧
    ((((⟨[.existsOp true none], 0⟩ : MockQueryExecutor Nat Nat Nat).Exec (0 : Nat) 0 []).ex =
        ⟨[.existsOp true none], 0 + 1⟩ ∧
      ((⟨[.existsOp true none], 0⟩ : MockQueryExecutor Nat Nat Nat).Exec (0 : Nat) 0 []).outcome =
        (execOpApply ((⟨[.existsOp true none], 0⟩ :
          MockQueryExecutor Nat Nat Nat).Ops.get ⟨0, by decide⟩) 0 []).1) ∧
     (((⟨[.existsOp true none], 0⟩ : MockQueryExecutor Nat Nat Nat).Scan (0 : Nat) 0 []).ex =
        ⟨[.existsOp true none], 0 + 1⟩ ∧
      ((⟨[.existsOp true none], 0⟩ : MockQueryExecutor Nat Nat Nat).Scan (0 : Nat) 0 []).outcome =
        (scanOpApply ((⟨[.existsOp true none], 0⟩ :
          MockQueryExecutor Nat Nat Nat).Ops.get ⟨0, by decide⟩) 0 []).1) ∧
     (((⟨[.existsOp true none], 0⟩ : MockQueryExecutor Nat Nat Nat).Exists (0 : Nat) 0).ex =
        ⟨[.existsOp true none], 0 + 1⟩ ∧
      ((⟨[.existsOp true none], 0⟩ : MockQueryExecutor Nat Nat Nat).Exists (0 : Nat) 0).outcome =
        existsOpApply ((⟨[.existsOp true none], 0⟩ :
          MockQueryExecutor Nat Nat Nat).Ops.get ⟨0, by decide⟩)) ∧
     runCalls (⟨[.existsOp true none], 0⟩ : MockQueryExecutor Nat Nat Nat)
       [Call.existsC 0 0] = ⟨[.existsOp true none], 1⟩) :=
  ⟨by decide, by decide,
    mock_nth_call_consumes_nth_entry
      (⟨[.existsOp true none], 0⟩ : MockQueryExecutor Nat Nat Nat)
      0 0 [] (by decide) [Call.existsC 0 0] (by decide)⟩

/-- Witness for C2 at a concrete executor whose next operation is a
MockScanOperation. -/
theorem mock_type_mismatch_panic_iff_witness :
    (0 : Nat) < 1 ∧
    ((((⟨[.scanOp none [] none], 0⟩ : MockQueryExecutor Nat Nat Nat).Exec (0 : Nat) 0 []).outcome =
        .panic (.typeMismatch "MockExec") ↔
      ((⟨[.scanOp none [] none], 0⟩ :
        MockQueryExecutor Nat Nat Nat).Ops.get ⟨0, by decide⟩).isExec = false) ∧
     (((⟨[.scanOp none [] none], 0⟩ : MockQueryExecutor Nat Nat Nat).Scan (0 : Nat) 0 []).outcome =
        .panic (.typeMismatch "MockScan") ↔
      ((⟨[.scanOp none [] none], 0⟩ :
        MockQueryExecutor Nat Nat Nat).Ops.get ⟨0, by decide⟩).isScan = false) ∧
     (((⟨[.scanOp none [] none], 0⟩ : MockQueryExecutor Nat Nat Nat).Exists (0 : Nat) 0).outcome =
        .panic (.typeMismatch "MockExists") ↔
      ((⟨[.scanOp none [] none], 0⟩ :
        MockQueryExecutor Nat Nat Nat).Ops.get ⟨0, by decide⟩).isExists = false)) :=
  ⟨by decide,
    mock_type_mismatch_panic_iff
      (⟨[.scanOp none [] none], 0⟩ : MockQueryExecutor Nat Nat Nat) 0 0 [] (by decide)⟩

/-- Witness for C4 at a concrete executor whose next operation is a
MockExecOperation carrying an error. -/
theorem mock_scripted_error_verbatim_witness :
    (0 : Nat) < 1 ∧
    (((⟨[.execOp none [] none (some 3)], 0⟩ :
        MockQueryExecutor Nat Nat Nat).Ops.get ⟨0, by decide⟩ = .execOp none [] none (some 3) →
      ((⟨[.execOp none [] none (some 3)], 0⟩ :
        MockQueryExecutor Nat Nat Nat).Exec (0 : Nat) 0 []).outcome = .ret none (some 3)) ∧
     ((⟨[.execOp none [] none (some 3)], 0⟩ :
        MockQueryExecutor Nat Nat Nat).Ops.get ⟨0, by decide⟩ = .scanOp none [] (some 0) →
      ((⟨[.execOp none [] none (some 3)], 0⟩ :
        MockQueryExecutor Nat Nat Nat).Scan (0 : Nat) 0 []).outcome = .ret (some 0)) ∧
     ((⟨[.execOp none [] none (some 3)], 0⟩ :
        MockQueryExecutor Nat Nat Nat).Ops.get ⟨0, by decide⟩ = .existsOp false (some 0) →
      ((⟨[.execOp none [] none (some 3)], 0⟩ :
        MockQueryExecutor Nat Nat Nat).Exists (0 : Nat) 0).outcome = .ret false (some 0))) :=
  ⟨by decide,
    mock_scripted_error_verbatim
      (⟨[.execOp none [] none (some 3)], 0⟩ : MockQueryExecutor Nat Nat Nat)
      0 0 [] (by decide) none [] none 3 none [] 0 false 0⟩

/-- Witness for the amended C6 at a concrete executor whose next
operation is a MockScanOperation with a model and no args. -/
theorem scan_model_assign_amended_witness :
    (0 : Nat) < 1 ∧
    (((⟨[.scanOp (some 5) [] none], 0⟩ :
        MockQueryExecutor Nat Nat Nat).Scan (0 : Nat) 0 []).qModel = 5 ∧
     (([] : List Nat).length ≤ ([] : List Nat).length →
      ((⟨[.scanOp (some 5) [] none], 0⟩ :
        MockQueryExecutor Nat Nat Nat).Scan (0 : Nat) 0 []).outcome = .ret none)) :=
  ⟨by decide,
    scan_model_assign_amended
      (⟨[.scanOp (some 5) [] none], 0⟩ : MockQueryExecutor Nat Nat Nat)
      0 0 [] (by decide) 5 [] (by decide)⟩

/-- Witness for C7 at a concrete executor, two different contexts, two
different query models and two different argument lists of the same
length. -/
theorem mock_outcome_independent_witness :
    ([4] : List Nat).length = ([6] : List Nat).length ∧
    ((((⟨[.execOp none [] none none], 0⟩ :
        MockQueryExecutor Nat Nat Nat).Exec (0 : Nat) 2 [4]).outcome =
      (((⟨[.execOp none [] none none], 0⟩ :
        MockQueryExecutor Nat Nat Nat)).Exec (1 : Nat) 3 [6]).outcome) ∧
     (((⟨[.execOp none [] none none], 0⟩ :
        MockQueryExecutor Nat Nat Nat).Scan (0 : Nat) 2 [4]).outcome =
      (((⟨[.execOp none [] none none], 0⟩ :
        MockQueryExecutor Nat Nat Nat)).Scan (1 : Nat) 3 [6]).outcome) ∧
     (((⟨[.execOp none [] none none], 0⟩ :
        MockQueryExecutor Nat Nat Nat).Exists (0 : Nat) 2).outcome =
      (((⟨[.execOp none [] none none], 0⟩ :
        MockQueryExecutor Nat Nat Nat)).Exists (1 : Nat) 3).outcome)) :=
  ⟨by decide,
    mock_outcome_independent_of_query_and_ctx
      (⟨[.execOp none [] none none], 0⟩ : MockQueryExecutor Nat Nat Nat)
      0 1 2 3 [4] [6] (by decide)⟩

/-- Witness for C8 at a concrete executor whose next operation is a
MockExecOperation with one operation arg and one caller arg, plus an
exhausted executor for the Scan conjunct. -/
theorem exec_length_check_scan_unchecked_witness :
    (0 : Nat) < 1 ∧ ([5] : List Nat) ≠ [] ∧
    ((((⟨[.execOp none [5] (some 9) none], 0⟩ :
        MockQueryExecutor Nat Nat Nat).Exec (0 : Nat) 0 [1]).outcome =
          .panic .argsLenMismatch ↔ ([5] : List Nat).length ≠ ([1] : List Nat).length) ∧
     (([5] : List Nat).length = ([1] : List Nat).length →
      ((⟨[.execOp none [5] (some 9) none], 0⟩ :
        MockQueryExecutor Nat Nat Nat).Exec (0 : Nat) 0 [1]).outcome = .ret (some 9) none ∧
      ((⟨[.execOp none [5] (some 9) none], 0⟩ :
        MockQueryExecutor Nat Nat Nat).Exec (0 : Nat) 0 [1]).args = [5]) ∧
     ((⟨[], 0⟩ : MockQueryExecutor Nat Nat Nat).Scan (0 : Nat) 0 []).outcome ≠
        .panic .argsLenMismatch) :=
  ⟨by decide, by decide,
    exec_length_check_scan_unchecked
      (⟨[.execOp none [5] (some 9) none], 0⟩ : MockQueryExecutor Nat Nat Nat)
      0 0 [1] (by decide) none [5] (some 9) (by decide) (by decide)
      (⟨[], 0⟩ : MockQueryExecutor Nat Nat Nat) 0 0 []⟩

/-- Witness for C9 at a concrete executor whose next operation is a
MockScanOperation carrying an error. -/
theorem error_branch_no_writes_witness :
    (0 : Nat) < 1 ∧
    (((⟨[.scanOp none [] (some 7)], 0⟩ :
        MockQueryExecutor Nat Nat Nat).Ops.get ⟨0, by decide⟩ = .execOp none [] none (some 0) →
      ((⟨[.scanOp none [] (some 7)], 0⟩ :
        MockQueryExecutor Nat Nat Nat).Exec (0 : Nat) 2 [3]).qModel = 2 ∧
      ((⟨[.scanOp none [] (some 7)], 0⟩ :
        MockQueryExecutor Nat Nat Nat).Exec (0 : Nat) 2 [3]).args = [3] ∧
      ((⟨[.scanOp none [] (some 7)], 0⟩ :
        MockQueryExecutor Nat Nat Nat).Exec (0 : Nat) 2 [3]).opModel = none ∧
      ((⟨[.scanOp none [] (some 7)], 0⟩ :
        MockQueryExecutor Nat Nat Nat).Exec (0 : Nat) 2 [3]).ex.idx = 0 + 1) ∧
     ((⟨[.scanOp none [] (some 7)], 0⟩ :
        MockQueryExecutor Nat Nat Nat).Ops.get ⟨0, by decide⟩ = .scanOp none [] (some 7) →
      ((⟨[.scanOp none [] (some 7)], 0⟩ :
        MockQueryExecutor Nat Nat Nat).Scan (0 : Nat) 2 [3]).qModel = 2 ∧
      ((⟨[.scanOp none [] (some 7)], 0⟩ :
        MockQueryExecutor Nat Nat Nat).Scan (0 : Nat) 2 [3]).args = [3] ∧
      ((⟨[.scanOp none [] (some 7)], 0⟩ :
        MockQueryExecutor Nat Nat Nat).Scan (0 : Nat) 2 [3]).ex.idx = 0 + 1) ∧
     ((⟨[.scanOp none [] (some 7)], 0⟩ :
        MockQueryExecutor Nat Nat Nat).Ops.get ⟨0, by decide⟩ = .existsOp false (some 0) →
      ((⟨[.scanOp none [] (some 7)], 0⟩ :
        MockQueryExecutor Nat Nat Nat).Exists (0 : Nat) 2).ex.idx = 0 + 1)) :=
  ⟨by decide,
    error_branch_no_writes_cursor_advances
      (⟨[.scanOp none [] (some 7)], 0⟩ : MockQueryExecutor Nat Nat Nat)
      0 2 [3] (by decide) none [] none 0 none [] 7 false 0⟩

/-- Witness for C10 at a concrete executor whose next operation is a
MockExecOperation with a model and no error. -/
theorem exec_scan_model_copy_directions_witness :
    (0 : Nat) < 1 ∧
    (((⟨[.execOp (some 8) [] none none], 0⟩ :
        MockQueryExecutor Nat Nat Nat).Ops.get ⟨0, by decide⟩ = .execOp (some 8) [] none none →
      ((⟨[.execOp (some 8) [] none none], 0⟩ :
        MockQueryExecutor Nat Nat Nat).Exec (0 : Nat) 2 []).opModel = some 2 ∧
      ((⟨[.execOp (some 8) [] none none], 0⟩ :
        MockQueryExecutor Nat Nat Nat).Exec (0 : Nat) 2 []).qModel = 2) ∧
     ((⟨[.execOp (some 8) [] none none], 0⟩ :
        MockQueryExecutor Nat Nat Nat).Ops.get ⟨0, by decide⟩ = .scanOp (some 0) [] none →
      ((⟨[.execOp (some 8) [] none none], 0⟩ :
        MockQueryExecutor Nat Nat Nat).Scan (0 : Nat) 2 []).qModel = 0)) :=
  ⟨by decide,
    exec_scan_model_copy_directions
      (⟨[.execOp (some 8) [] none none], 0⟩ : MockQueryExecutor Nat Nat Nat)
      0 2 [] (by decide) 8 [] none 0 []⟩

end Bunoffe
